import Mathlib

/-!
Shallow embedding of the BTO DWI preparation pipeline
(`src/scripts/bto_dwi_prep.py`) and proofs about its specification.

Modelling conventions:
* A NIfTI image is either 3-D (one volume) or 4-D (a list of volumes along
  axis 3).  Volume payloads are opaque naturals.
* A gradient-strength (`.bval`) file is the list of its parsed numeric
  tokens (the code reads it with `fb.read().split()`; tokens and entries
  correspond one to one, so token counts are entry counts).
* A gradient-direction (`.bvec`) file, as loaded by `np.loadtxt`, is either
  a 1-D vector or a 2-D row-major rectangular matrix of rationals.
* Floats are modelled as rationals; the pipeline only compares, sorts and
  subtracts them, never in a way where rational arithmetic diverges from
  the doubles the code uses on its in-scope inputs.
* Python exceptions that the script does not catch are modelled explicitly
  (`Except`-style error constructors); an uncaught exception aborts the
  whole process, which the per-session and whole-run models record.
-/

namespace BTO

/-- A loaded NIfTI image: 3-D (single volume) or 4-D (volumes along axis 3).
Volume payloads are opaque naturals. -/
inductive Image where
  | vol3 (v : ℕ)
  | vol4 (vs : List ℕ)
deriving DecidableEq

/-- Embeds `get_nvols`: a 3-D image counts as one volume, a 4-D image has
`shape[3]` volumes. -/
def get_nvols : Image → ℕ
  | .vol3 _ => 1
  | .vol4 vs => vs.length

/-- Embeds `concat_bvals`: the token streams of the input files are
concatenated in file order (`bvals.extend(fb.read().split())` in a loop)
and written back as one whitespace-joined line. -/
def concat_bvals (files : List (List ℚ)) : List ℚ :=
  files.foldl (fun acc f => acc ++ f) []

/-- A 2-D numeric table as loaded by `np.loadtxt`: either a 1-D vector or a
2-D row-major matrix. -/
inductive NDArr where
  | one (v : List ℚ)
  | two (m : List (List ℚ))
deriving DecidableEq

/-- Embeds the per-file body of `concat_bvecs`: a 1-D array is rejected as
malformed; a table with 3 rows is kept as is; otherwise a table whose rows
have length 3 is transposed; any other shape is rejected. -/
def normalize_bvec : NDArr → Except String (List (List ℚ))
  | .one _ => .error "bvec file appears 1D or malformed"
  | .two m =>
    if m.length = 3 then .ok m
    else if (m.headD []).length = 3 then .ok m.transpose
    else .error "bvec file has unexpected shape, expected 3xN or Nx3"

/-- Embeds the loop of `concat_bvecs` that normalizes each file in order,
raising (short-circuiting) at the first malformed file. -/
def normalizeAll : List NDArr → Except String (List (List (List ℚ)))
  | [] => .ok []
  | a :: rest =>
    match normalize_bvec a with
    | .error e => .error e
    | .ok m =>
      match normalizeAll rest with
      | .error e => .error e
      | .ok ms => .ok (m :: ms)

/-- Embeds `np.hstack` on a list of 3-row matrices: rows are appended
columnwise, starting from an empty 3-row matrix. -/
def hstackAll (ms : List (List (List ℚ))) : List (List ℚ) :=
  ms.foldl (fun acc m => List.zipWith (fun r s => r ++ s) acc m) [[], [], []]

/-- Embeds `concat_bvecs`: normalize every file to 3xN then hstack; any
shape error propagates as an uncaught `ValueError`. -/
def concat_bvecs (files : List NDArr) : Except String (List (List ℚ)) :=
  match normalizeAll files with
  | .error e => .error e
  | .ok ms => .ok (hstackAll ms)

/-- Embeds the selection `[i for i, b in enumerate(bvals) if b == 0.0]` of
`extract_b0_volumes`: indices whose strength entry is exactly zero, in
original order. -/
def b0_indices (bvals : List ℚ) : List ℕ :=
  (List.range bvals.length).filter (fun i => bvals.getD i 1 = 0)

/-- Result of `extract_b0_volumes`, keeping track of which files were
written before any uncaught exception. -/
inductive ExtractResult where
  | noB0
  | ok (b0 : List ℕ) (json : ℕ)
  | errorBeforeWrite (msg : String)
  | errorAfterNii (b0 : List ℕ) (msg : String)
deriving DecidableEq

/-- Embeds `extract_b0_volumes` over an abstract filesystem: `none` inputs
are missing files (opening them raises).  The code opens the combined bval,
selects the exactly-zero entries, returns with only a warning when none
exist, loads the image, raises `ValueError` on a non-4-D image before any
write, writes the b0 image, then copies the sidecar (raising after the b0
image write when the sidecar is missing). -/
def extract_b0_volumes (bvalFile : Option (List ℚ)) (niiFile : Option Image)
    (jsonFile : Option ℕ) : ExtractResult :=
  match bvalFile with
  | none => .errorBeforeWrite "FileNotFoundError: combined bval"
  | some bvals =>
    if b0_indices bvals = [] then .noB0
    else
      match niiFile with
      | none => .errorBeforeWrite "FileNotFoundError: combined nii"
      | some (.vol3 _) => .errorBeforeWrite "ValueError: expected 4D image"
      | some (.vol4 vs) =>
        let b0 := (b0_indices bvals).map (fun i => vs.getD i 0)
        match jsonFile with
        | none => .errorAfterNii b0 "FileNotFoundError: combined json"
        | some j => .ok b0 j

/-- Embeds the image combination of `step1_combine_and_extract_b0`:
`np.concatenate([img1.get_fdata(), img2.get_fdata()], axis=3)` on two 4-D
run images, run-1 volumes first. -/
def step1_combine (vs1 vs2 : List ℕ) : Image :=
  .vol4 (vs1 ++ vs2)

/-- The source files of one session's forward-direction (AP) run pair:
`none` means the file is absent from the raw dataset. -/
structure SessionFiles where
  run1_nii : Option (List ℕ)
  run2_nii : Option (List ℕ)
  run1_bval : Option (List ℚ)
  run2_bval : Option (List ℚ)
  run1_bvec : Option NDArr
  run2_bvec : Option NDArr
  run1_json : Option ℕ
deriving DecidableEq

/-- The derived artifacts step 1 has written for one session by the time it
stops (normally or through an uncaught exception). -/
structure Step1Writes where
  out_nii : Option (List ℕ)
  out_json : Option ℕ
  out_bval : Option (List ℚ)
  out_bvec : Option (List (List ℚ))
  b0_nii : Option (List ℕ)
  b0_json : Option ℕ
deriving DecidableEq

/-- Outcome of step 1 on one session: the run pair was incomplete (nothing
combined), an uncaught exception aborted the whole process, or processing
completed, in both of the last two cases with the artifacts written so far
and the diagnostics printed so far. -/
inductive SessionOutcome where
  | skippedPair
  | aborted (written : Step1Writes) (warnings : List String) (msg : String)
  | completed (written : Step1Writes) (warnings : List String)
deriving DecidableEq

/-- Embeds the tail of the AP branch of `step1_combine_and_extract_b0`: the
unconditional `extract_b0_volumes` call on the combined artifacts.  An
exception raised there aborts the run with the artifacts written so far. -/
def step1_finish (out_nii : List ℕ) (out_json : Option ℕ)
    (out_bval : Option (List ℚ)) (out_bvec : Option (List (List ℚ)))
    (warns : List String) : SessionOutcome :=
  match extract_b0_volumes out_bval (some (Image.vol4 out_nii)) out_json with
  | .errorBeforeWrite e =>
    .aborted ⟨some out_nii, out_json, out_bval, out_bvec, none, none⟩ warns e
  | .errorAfterNii b0 e =>
    .aborted ⟨some out_nii, out_json, out_bval, out_bvec, some b0, none⟩
      warns e
  | .noB0 =>
    .completed ⟨some out_nii, out_json, out_bval, out_bvec, none, none⟩
      (warns ++ ["Warning: no b0 volumes found"])
  | .ok b0 j =>
    .completed ⟨some out_nii, out_json, out_bval, out_bvec, some b0, some j⟩
      warns

/-- Embeds the AP branch of `step1_combine_and_extract_b0` for one session,
on a fresh derivatives tree.  If both run images exist the code combines
them, copies the run-1 sidecar (warning if absent), concatenates the bval
and bvec pairs (warning if either member is absent, for bvecs an uncaught
shape error aborts), and then unconditionally calls `extract_b0_volumes`
on the combined paths — even when the combined bval or sidecar was never
written. -/
def step1_session (f : SessionFiles) : SessionOutcome :=
  match f.run1_nii, f.run2_nii with
  | some vs1, some vs2 =>
    let out_nii := vs1 ++ vs2
    let out_json := f.run1_json
    let jwarn : List String :=
      match f.run1_json with
      | some _ => []
      | none => ["Warning: run-1 json missing, not copied"]
    let out_bval : Option (List ℚ) :=
      match f.run1_bval, f.run2_bval with
      | some b1, some b2 => some (concat_bvals [b1, b2])
      | _, _ => none
    let bwarn : List String :=
      match f.run1_bval, f.run2_bval with
      | some _, some _ => []
      | _, _ => ["Warning: Missing bval file"]
    match f.run1_bvec, f.run2_bvec with
    | some a1, some a2 =>
      match concat_bvecs [a1, a2] with
      | .error e =>
        .aborted ⟨some out_nii, out_json, out_bval, none, none, none⟩
          (jwarn ++ bwarn) e
      | .ok g => step1_finish out_nii out_json out_bval (some g)
          (jwarn ++ bwarn)
    | _, _ => step1_finish out_nii out_json out_bval none
        (jwarn ++ bwarn ++ ["Warning: Missing bvec file"])
  | _, _ => .skippedPair

/-- Embeds the subject/session loop of step 1: sessions are processed in
order and an uncaught exception aborts the whole run, leaving the remaining
sessions unprocessed.  Returns the outcomes of the sessions that were
reached and the aborting message, if any. -/
def step1_all : List SessionFiles → List SessionOutcome × Option String
  | [] => ([], none)
  | s :: rest =>
    match step1_session s with
    | .aborted w ws m => ([.aborted w ws m], some m)
    | r =>
      let p := step1_all rest
      (r :: p.1, p.2)

/-- A session whose AP run images both exist but whose run-1 bval file is
missing. -/
def c3BadSession : SessionFiles :=
  ⟨some [5, 6], some [7], none, some [0],
    some (.two [[1, 0], [0, 1], [0, 0]]), some (.two [[1], [0], [0]]),
    some 1⟩

/-- The same session with every companion artifact present. -/
def c3GoodSession : SessionFiles :=
  ⟨some [5, 6], some [7], some [0, 1000], some [0],
    some (.two [[1, 0], [0, 1], [0, 0]]), some (.two [[1], [0], [0]]),
    some 1⟩

/-- Embeds the 4-D coercion of `concat_topup_inputs`: a 3-D reference set
is treated as a single acquired volume (`data[..., np.newaxis]`). -/
def coerce4d : Image → List ℕ
  | .vol3 v => [v]
  | .vol4 vs => vs

/-- Embeds `concat_topup_inputs`: AP then PA reference volumes concatenated
along the acquisition axis after coercion to 4-D. -/
def concat_topup_inputs (ap pa : Image) : Image :=
  .vol4 (coerce4d ap ++ coerce4d pa)

/-- Embeds the `.params` write loop of `step2_make_topup`: `n_ap` rows
`0 -1 0 trt` followed by `n_total - n_ap` rows `0 1 0 trt` (the Python
`range` of a negative count is empty, matching truncated Nat
subtraction). -/
def topup_params (n_ap n_total : ℕ) (trt : ℚ) : List (ℚ × ℚ × ℚ × ℚ) :=
  List.replicate n_ap (0, -1, 0, trt)
    ++ List.replicate (n_total - n_ap) (0, 1, 0, trt)

/-- One session directory of the derivatives tree as step 2 sees it:
inputs (AP/PA reference images, the combined sidecar with its optional
TotalReadoutTime) and step-2 outputs (merged TOPUP input, parameter table,
command record, config).  `none` means the file is absent. -/
structure Step2FS where
  ap_b0 : Option Image
  pa_b0 : Option Image
  ap_json : Option (Option ℚ)
  topup_input : Option Image
  params : Option (List (ℚ × ℚ × ℚ × ℚ))
  cmd : Option ℕ
  cnf : Bool
deriving DecidableEq

/-- Result of one step-2 pass over a session directory: the directory
afterwards, plus which write actions the pass performed. -/
structure Step2Result where
  fs : Step2FS
  mergeInvoked : Bool
  paramsWritten : Bool
  cmdWritten : Bool
deriving DecidableEq

/-- Embeds the per-session body of `step2_make_topup`: the config file is
always rewritten; if both reference images exist, the merged TOPUP input is
created only when not already on disk; the session is skipped (continue)
when a reference image, the combined sidecar, or its TotalReadoutTime is
missing; otherwise the parameter table — row counts taken from the resolved
volume counts of the AP reference image and the (possibly pre-existing)
merged input on disk — and the command record are rewritten
unconditionally. -/
def step2_session (nthr : ℕ) (fs0 : Step2FS) : Step2Result :=
  let fs1 : Step2FS := { fs0 with cnf := true }
  match fs0.ap_b0, fs0.pa_b0 with
  | some ap, some pa =>
    let fs2 : Step2FS :=
      match fs1.topup_input with
      | some _ => fs1
      | none => { fs1 with topup_input := some (concat_topup_inputs ap pa) }
    let merged : Bool :=
      match fs1.topup_input with
      | some _ => false
      | none => true
    match fs2.ap_json with
    | some (some trt) =>
      let n_ap := get_nvols ap
      let n_total := get_nvols (fs2.topup_input.getD (Image.vol4 []))
      ⟨{ fs2 with
          params := some (topup_params n_ap n_total trt),
          cmd := some nthr },
        merged, true, true⟩
    | _ => ⟨fs2, merged, false, false⟩
  | _, _ => ⟨fs1, false, false, false⟩

/-- A fresh session directory ready for step 2: a 2-volume AP reference
image, a 3-volume PA reference image, a sidecar with TotalReadoutTime
1/20, and no step-2 outputs yet. -/
def c4FS : Step2FS :=
  ⟨some (.vol4 [1, 2]), some (.vol4 [3, 4, 5]), some (some (1 / 20)),
    none, none, none, false⟩

/-- An already-assembled session directory: inputs present and every
step-2 output (merged input, parameter table, command record, config)
already on disk. -/
def c9FS : Step2FS :=
  ⟨some (.vol4 [1]), some (.vol4 [2]), some (some 1), some (.vol4 [1, 2]),
    some [(0, -1, 0, 1), (0, 1, 0, 1)], some 4, true⟩

/-- Stable insertion of index `i` into an index list kept sorted by the
timestamp it points at: `i` goes after every already-placed index with a
less-or-equal timestamp. -/
def insertSorted (l : List ℚ) (i : ℕ) : List ℕ → List ℕ
  | [] => [i]
  | j :: rest =>
    if l.getD j 0 ≤ l.getD i 0 then j :: insertSorted l i rest
    else i :: j :: rest

/-- Embeds `np.argsort(slicetimes)`: the slice-index permutation that sorts
the timestamps.  numpy's tie order among equal timestamps is
implementation-defined; this model is the stable variant, and the
properties proved about it do not depend on the tie order. -/
def argsort (l : List ℚ) : List ℕ :=
  (List.range l.length).foldl (fun acc i => insertSorted l i acc) []

/-- Embeds `np.sort(slicetimes)`: the timestamps read off in argsort
order. -/
def np_sort (l : List ℚ) : List ℚ :=
  (argsort l).map (fun i => l.getD i 0)

/-- Embeds `np.diff`: adjacent differences `out i = a (i+1) - a i`. -/
def np_diff (l : List ℚ) : List ℚ :=
  List.zipWith (fun a b => b - a) l l.tail

/-- Embeds `ndarray.reshape((rows, cols))` on a 1-D index array: row-major
(C-order) rows of length `cols`; `none` models the `ValueError` raised when
the sizes do not multiply out. -/
def reshape2 (l : List ℕ) (rows cols : ℕ) : Option (List (List ℕ)) :=
  if rows * cols = l.length then
    some ((List.range rows).map (fun r => (l.drop (r * cols)).take cols))
  else none

/-- Embeds the slspec computation of `generate_slspec`: argsort the
timestamps, count distinct values (`np.sum(np.diff(sorted) != 0) + 1`),
divide to get the multiband factor, reshape the argsort permutation
row-major into (mb, n//mb) and transpose. -/
def generate_slspec (slicetimes : List ℚ) : Option (List (List ℕ)) :=
  let sindx := argsort slicetimes
  let sortedslicetimes := np_sort slicetimes
  let n_groups :=
    ((np_diff sortedslicetimes).filter (fun d => d ≠ 0)).length + 1
  let mb := slicetimes.length / n_groups
  (reshape2 sindx mb (sindx.length / mb)).map List.transpose

/-- The slice-timing list of the claimed example: six slices at three
distinct instants 0, 1/10 and 2/10 seconds. -/
def exTimes : List ℚ := [0, 0, 1 / 10, 1 / 10, 2 / 10, 2 / 10]

/-- Embeds the indices write of `step3_run_eddy`, modelled as lines of
whitespace-separated tokens: the code writes the single line
`' '.flatten(['1'] * nvols) + '\n'`. -/
def eddy_indices (nvols : ℕ) : List (List String) :=
  [List.replicate nvols "1"]

/-- The volume-index table step 3 writes for a combined run: the constant
marker 1 once per volume of the combined image. -/
def step3_indices (combined : Image) : List (List String) :=
  eddy_indices (get_nvols combined)

end BTO

namespace BTO

/-- Helper: if some file in the list fails bvec normalization, the whole
concatenation raises (the loop short-circuits at the first bad file). -/
theorem concat_bvecs_error_of_mem {files : List NDArr} {a : NDArr}
    (ha : a ∈ files) {e0 : String} (he : normalize_bvec a = .error e0) :
    ∃ e, concat_bvecs files = .error e := by
  suffices h : ∃ e, normalizeAll files = .error e by
    obtain ⟨e, h⟩ := h
    exact ⟨e, by simp [concat_bvecs, h]⟩
  induction files with
  | nil => cases ha
  | cons b rest ih =>
    rcases List.mem_cons.mp ha with rfl | hmem
    · exact ⟨e0, by simp [normalizeAll, he]⟩
    · cases hb : normalize_bvec b with
      | error e => exact ⟨e, by simp [normalizeAll, hb]⟩
      | ok m =>
        obtain ⟨e, h⟩ := ih hmem
        exact ⟨e, by simp [normalizeAll, hb, h]⟩

/-- Claim C7: reference-volume extraction selects exactly the volumes whose
gradient-strength entry equals 0 (hard equality, no tolerance), keeps them
in original order (the selected index list is strictly increasing), rejects
a tiny nonzero strength, and on the table [0,1000,0,2000,0] selects exactly
indices [0,2,4], a count of 3. -/
theorem C7_b0_selection :
    (∀ (bvals : List ℚ) (i : ℕ),
        i ∈ b0_indices bvals ↔ i < bvals.length ∧ bvals.getD i 1 = 0)
    ∧ (∀ bvals : List ℚ, List.Pairwise (· < ·) (b0_indices bvals))
    ∧ b0_indices [0, 1000, 0, 2000, 0] = [0, 2, 4]
    ∧ (b0_indices [0, 1000, 0, 2000, 0]).length = 3
    ∧ b0_indices [1 / 1000000000] = [] := by
  refine ⟨?_, ?_, by decide, by decide, ?_⟩
  · intro bvals i
    simp [b0_indices, List.mem_filter, List.mem_range]
  · intro bvals
    exact (List.pairwise_lt_range _).filter _
  · have h : ((1 : ℚ) / 1000000000) ≠ 0 := by norm_num
    simp [b0_indices, show List.range 1 = [0] from rfl, List.filter, h]

/-- Claim C10: handing a 3-D (non-4-D) image to reference-volume extraction
while the strength table contains an exactly-zero entry raises a hard
`ValueError` before anything is written: neither the reference image nor
its sidecar is produced, and the result is not the report-and-skip
outcome. -/
theorem C10_non4d_hard_error (bvals : List ℚ) (h : (0 : ℚ) ∈ bvals)
    (v : ℕ) (jsonFile : Option ℕ) :
    extract_b0_volumes (some bvals) (some (Image.vol3 v)) jsonFile
      = .errorBeforeWrite "ValueError: expected 4D image" := by
  have hne : b0_indices bvals ≠ [] := by
    obtain ⟨i, hi, hv⟩ := List.mem_iff_getElem.mp h
    have : i ∈ b0_indices bvals := by
      simp [b0_indices, List.mem_filter, List.mem_range, hi]
      simpa [List.getD_eq_getElem _ _ hi] using hv
    exact List.ne_nil_of_mem this
  simp [extract_b0_volumes, hne]

/-- Witness for C10 at a concrete input. -/
theorem C10_non4d_hard_error_witness :
    extract_b0_volumes (some [0, 1000]) (some (Image.vol3 7)) (some 3)
      = .errorBeforeWrite "ValueError: expected 4D image" :=
  C10_non4d_hard_error [0, 1000] (by decide) 7 (some 3)

/-- Claim C1: combining two same-direction 4-D runs of N1 and N2 volumes
yields a combined image with exactly N1+N2 volumes (run-1 volumes first,
each run's internal order preserved), a concatenated strength table with
N1+N2 entries (run-1 entries first, order preserved), and a concatenated
direction table with 3 rows and N1+N2 columns (run-1 columns first, order
preserved: row i of the result is row i of run-1 followed by row i of
run-2). -/
theorem C1_combine_counts (vs1 vs2 : List ℕ) (t1 t2 : List ℚ)
    (a1 a2 : NDArr) (m1 m2 : List (List ℚ))
    (h1 : normalize_bvec a1 = .ok m1) (h2 : normalize_bvec a2 = .ok m2)
    (hr1 : m1.length = 3) (hr2 : m2.length = 3)
    (hcol1 : ∀ r ∈ m1, r.length = vs1.length)
    (hcol2 : ∀ r ∈ m2, r.length = vs2.length)
    (hb1 : t1.length = vs1.length) (hb2 : t2.length = vs2.length) :
    step1_combine vs1 vs2 = .vol4 (vs1 ++ vs2)
    ∧ get_nvols (step1_combine vs1 vs2) = vs1.length + vs2.length
    ∧ concat_bvals [t1, t2] = t1 ++ t2
    ∧ (concat_bvals [t1, t2]).length = vs1.length + vs2.length
    ∧ concat_bvecs [a1, a2] = .ok (List.zipWith (fun r s => r ++ s) m1 m2)
    ∧ (List.zipWith (fun r s => r ++ s) m1 m2).length = 3
    ∧ ∀ r ∈ List.zipWith (fun r s => r ++ s) m1 m2,
        r.length = vs1.length + vs2.length := by
  obtain ⟨x, y, z, rfl⟩ := List.length_eq_three.mp hr1
  obtain ⟨u, v, w, rfl⟩ := List.length_eq_three.mp hr2
  refine ⟨rfl, by simp [step1_combine, get_nvols], by simp [concat_bvals],
    by simp [concat_bvals, hb1, hb2], ?_, by simp, ?_⟩
  · simp [concat_bvecs, normalizeAll, h1, h2, hstackAll]
  · intro r hr
    have hx := hcol1 x (by simp)
    have hy := hcol1 y (by simp)
    have hz := hcol1 z (by simp)
    have hu := hcol2 u (by simp)
    have hv := hcol2 v (by simp)
    have hw := hcol2 w (by simp)
    simp only [List.zipWith, List.mem_cons, List.not_mem_nil, or_false] at hr
    rcases hr with rfl | rfl | rfl <;>
      simp [List.length_append, hx, hy, hz, hu, hv, hw]

/-- Witness for C1 at a concrete pair of runs (N1 = 2, N2 = 1). -/
theorem C1_combine_counts_witness :
    get_nvols (step1_combine [10, 11] [12]) = 2 + 1
    ∧ concat_bvals [[0, 1000], [0]] = [0, 1000] ++ [0]
    ∧ concat_bvecs [.two [[1, 0], [0, 1], [0, 0]], .two [[1], [0], [0]]]
        = .ok (List.zipWith (fun r s => r ++ s)
            [[1, 0], [0, 1], [0, 0]] [[1], [0], [0]]) := by
  have h := C1_combine_counts [10, 11] [12] [0, 1000] [0]
    (.two [[1, 0], [0, 1], [0, 0]]) (.two [[1], [0], [0]])
    [[1, 0], [0, 1], [0, 0]] [[1], [0], [0]]
    rfl rfl (by decide) (by decide) (by decide) (by decide)
    (by decide) (by decide)
  exact ⟨h.2.1, h.2.2.1, h.2.2.2.2.1⟩

/-- Counterexample to claim C6 as stated: a gradient-direction table of
shape 4x3 — an instance of the 4xN family the claim says must always raise
a shape error — is accepted by concatenation and silently transposed into
the 3x4 internal layout, because any table whose rows have length 3 is a
legitimate Nx3 on-disk layout to the code. -/
theorem C6_counterexample :
    concat_bvecs [.two [[1, 0, 0], [0, 1, 0], [0, 0, 1], [1, 1, 1]]]
      = .ok [[1, 0, 0, 1], [0, 1, 0, 1], [0, 0, 1, 1]] := by rfl

/-- Claim C6 amended: concatenation raises a shape error, with no silent
truncation or reinterpretation, for every 1-D table and for every 2-D table
whose row count and row length both differ from 3 (in particular 4xN with N
different from 3); a 4x3 table, however, is a legitimate Nx3 layout and is
transposed and accepted. -/
theorem C6_malformed_bvec (files : List NDArr) :
    (∀ v : List ℚ, NDArr.one v ∈ files → ∃ e, concat_bvecs files = .error e)
    ∧ (∀ m : List (List ℚ), NDArr.two m ∈ files → m.length ≠ 3 →
        (m.headD []).length ≠ 3 → ∃ e, concat_bvecs files = .error e)
    ∧ concat_bvecs [.two [[1, 0, 0], [0, 1, 0], [0, 0, 1], [1, 1, 1]]]
      = .ok [[1, 0, 0, 1], [0, 1, 0, 1], [0, 0, 1, 1]] := by
  refine ⟨?_, ?_, by rfl⟩
  · intro v hv
    exact concat_bvecs_error_of_mem hv rfl
  · intro m hm hr hc
    have he : normalize_bvec (NDArr.two m)
        = .error "bvec file has unexpected shape, expected 3xN or Nx3" := by
      simp only [normalize_bvec]
      rw [if_neg hr, if_neg hc]
    exact concat_bvecs_error_of_mem hm he

/-- Witness for the amended C6: a 1-D table and a 2x2 table each make
concatenation raise. -/
theorem C6_malformed_bvec_witness :
    (∃ e, concat_bvecs [NDArr.one [1, 2, 3]] = .error e)
    ∧ ∃ e, concat_bvecs [NDArr.two [[1, 2], [3, 4]]] = .error e :=
  ⟨(C6_malformed_bvec [NDArr.one [1, 2, 3]]).1 [1, 2, 3] (by simp),
   (C6_malformed_bvec [NDArr.two [[1, 2], [3, 4]]]).2.1 [[1, 2], [3, 4]]
     (by simp) (by decide) (by decide)⟩

/-- Claim C3 is right and the code is wrong: with both AP run images
present but run-1's bval companion missing, step 1 prints the missing-bval
diagnostic (showing the intended report-and-continue handling) and then
unconditionally calls `extract_b0_volumes` on the combined bval path it
never wrote, raising an uncaught `FileNotFoundError` that aborts the whole
run — the following session, although complete and processable, is never
reached.  (A missing bvec, by contrast, is only warned about, and the
session is not skipped either.) -/
theorem C3_missing_companion_aborts :
    step1_session c3BadSession
      = .aborted
          ⟨some [5, 6, 7], some 1, none,
            some [[1, 0, 1], [0, 1, 0], [0, 0, 0]], none, none⟩
          ["Warning: Missing bval file"] "FileNotFoundError: combined bval"
    ∧ step1_all [c3BadSession, c3GoodSession]
        = ([.aborted
              ⟨some [5, 6, 7], some 1, none,
                some [[1, 0, 1], [0, 1, 0], [0, 0, 0]], none, none⟩
              ["Warning: Missing bval file"]
              "FileNotFoundError: combined bval"],
           some "FileNotFoundError: combined bval")
    ∧ (step1_all [c3BadSession, c3GoodSession]).1.length = 1
    ∧ step1_session c3GoodSession
        = .completed
            ⟨some [5, 6, 7], some 1, some [0, 1000, 0],
              some [[1, 0, 1], [0, 1, 0], [0, 0, 0]], some [5, 7], some 1⟩
            [] := by
  decide

/-- Helper: the merged TOPUP input has one volume per AP reference volume
followed by one per PA reference volume. -/
theorem get_nvols_concat_topup (ap pa : Image) :
    get_nvols (concat_topup_inputs ap pa) = get_nvols ap + get_nvols pa := by
  cases ap <;> cases pa <;>
    simp [concat_topup_inputs, coerce4d, get_nvols, Nat.add_comm]

/-- Claim C4: on a fresh session with an F-volume AP reference image and an
R-volume PA reference image, step 2 writes a parameter table of exactly
F + R rows — F rows (0, -1, 0, trt) first, then R rows (0, 1, 0, trt) —
with trt read from the AP sidecar and the counts taken from the resolved
volume counts. -/
theorem C4_params_rows (nthr : ℕ) (fs : Step2FS) (ap pa : Image) (trt : ℚ)
    (F R : ℕ)
    (hap : fs.ap_b0 = some ap) (hpa : fs.pa_b0 = some pa)
    (hjson : fs.ap_json = some (some trt)) (hti : fs.topup_input = none)
    (hF : get_nvols ap = F) (hR : get_nvols pa = R) :
    (step2_session nthr fs).fs.params
      = some (List.replicate F ((0 : ℚ), (-1 : ℚ), (0 : ℚ), trt)
          ++ List.replicate R ((0 : ℚ), (1 : ℚ), (0 : ℚ), trt))
    ∧ ((step2_session nthr fs).fs.params.getD []).length = F + R := by
  have h := get_nvols_concat_topup ap pa
  simp [step2_session, hap, hpa, hjson, hti, topup_params, h, hF, hR]

/-- Witness for C4 with 2 forward and 3 reverse reference volumes: exactly
5 rows. -/
theorem C4_params_rows_witness :
    (step2_session 4 c4FS).fs.params
      = some (List.replicate 2 ((0 : ℚ), (-1 : ℚ), (0 : ℚ), (1 / 20 : ℚ))
          ++ List.replicate 3 ((0 : ℚ), (1 : ℚ), (0 : ℚ), (1 / 20 : ℚ)))
    ∧ ((step2_session 4 c4FS).fs.params.getD []).length = 2 + 3 :=
  C4_params_rows 4 c4FS (.vol4 [1, 2]) (.vol4 [3, 4, 5]) (1 / 20) 2 3
    rfl rfl rfl rfl rfl rfl

/-- Claim C5: running step 2 a second time on a session it has already
assembled does not re-invoke the merge and leaves the merged TOPUP input
exactly as it was, while the parameter table and command record are
rewritten on the second run as well. -/
theorem C5_second_run_skips_merge (nthr : ℕ) (fs : Step2FS)
    (ap pa : Image) (trt : ℚ)
    (hap : fs.ap_b0 = some ap) (hpa : fs.pa_b0 = some pa)
    (hjson : fs.ap_json = some (some trt)) :
    (step2_session nthr (step2_session nthr fs).fs).mergeInvoked = false
    ∧ (step2_session nthr (step2_session nthr fs).fs).fs.topup_input
        = (step2_session nthr fs).fs.topup_input
    ∧ (step2_session nthr (step2_session nthr fs).fs).paramsWritten = true
    ∧ (step2_session nthr (step2_session nthr fs).fs).cmdWritten = true := by
  rcases hti : fs.topup_input with _ | T <;>
    simp [step2_session, hap, hpa, hjson, hti]

/-- Witness for C5 on a concrete fresh session. -/
theorem C5_second_run_skips_merge_witness :
    (step2_session 4 (step2_session 4 c4FS).fs).mergeInvoked = false
    ∧ (step2_session 4 (step2_session 4 c4FS).fs).fs.topup_input
        = (step2_session 4 c4FS).fs.topup_input
    ∧ (step2_session 4 (step2_session 4 c4FS).fs).paramsWritten = true
    ∧ (step2_session 4 (step2_session 4 c4FS).fs).cmdWritten = true :=
  C5_second_run_skips_merge 4 c4FS (.vol4 [1, 2]) (.vol4 [3, 4, 5]) (1 / 20)
    rfl rfl rfl

/-- Counterexample to claim C9 as stated: on an already-assembled session
whose parameter table and command record both exist on disk, a step-2 pass
rewrites both anyway — the stage does not check for their pre-existence and
does not skip recomputing them. -/
theorem C9_counterexample :
    c9FS.params.isSome = true ∧ c9FS.cmd.isSome = true
    ∧ (step2_session 4 c9FS).paramsWritten = true
    ∧ (step2_session 4 c9FS).cmdWritten = true :=
  ⟨rfl, rfl, rfl, rfl⟩

/-- Claim C9 amended: only the merged field-map input is guarded by a
pre-existence check (when it is on disk the merge is skipped and the file
left untouched); the other artifacts — step 2's config, parameter table and
command record, and all step 1 and step 3 outputs — are recomputed
unconditionally on every run.  Re-running step 2 on the same session
directory is nevertheless idempotent in content, because its outputs are
deterministic functions of its inputs. -/
theorem C9_only_merge_guarded :
    (∀ (nthr : ℕ) (fs : Step2FS), fs.topup_input.isSome = true →
      (step2_session nthr fs).mergeInvoked = false
      ∧ (step2_session nthr fs).fs.topup_input = fs.topup_input)
    ∧ (∀ (nthr : ℕ) (fs : Step2FS) (ap pa : Image) (trt : ℚ),
        fs.ap_b0 = some ap → fs.pa_b0 = some pa →
        fs.ap_json = some (some trt) →
        (step2_session nthr fs).paramsWritten = true
        ∧ (step2_session nthr fs).cmdWritten = true)
    ∧ ∀ (nthr : ℕ) (fs : Step2FS),
        (step2_session nthr (step2_session nthr fs).fs).fs
          = (step2_session nthr fs).fs := by
  refine ⟨?_, ?_, ?_⟩
  · intro nthr fs h
    obtain ⟨a, p, j, t, pr, c, cf⟩ := fs
    cases t with
    | none => simp at h
    | some T =>
      cases a with
      | none => exact ⟨rfl, rfl⟩
      | some ap =>
        cases p with
        | none => exact ⟨rfl, rfl⟩
        | some pa =>
          rcases j with _ | jv
          · exact ⟨rfl, rfl⟩
          · rcases jv with _ | trt
            · exact ⟨rfl, rfl⟩
            · exact ⟨rfl, rfl⟩
  · intro nthr fs ap pa trt hap hpa hjson
    obtain ⟨a, p, j, t, pr, c, cf⟩ := fs
    cases a with
    | none => exact Option.noConfusion hap
    | some x =>
      cases p with
      | none => exact Option.noConfusion hpa
      | some y =>
        rcases j with _ | jv
        · exact Option.noConfusion hjson
        · rcases jv with _ | trt2
          · simp at hjson
          · cases t with
            | none => exact ⟨rfl, rfl⟩
            | some T => exact ⟨rfl, rfl⟩
  · intro nthr fs
    obtain ⟨a, p, j, t, pr, c, cf⟩ := fs
    cases a with
    | none => rfl
    | some ap =>
      cases p with
      | none => rfl
      | some pa =>
        cases t with
        | none =>
          rcases j with _ | jv
          · rfl
          · rcases jv with _ | trt
            · rfl
            · rfl
        | some T =>
          rcases j with _ | jv
          · rfl
          · rcases jv with _ | trt
            · rfl
            · rfl

/-- Witness for the amended C9 on a concrete assembled session. -/
theorem C9_only_merge_guarded_witness :
    ((step2_session 4 c9FS).mergeInvoked = false
      ∧ (step2_session 4 c9FS).fs.topup_input = c9FS.topup_input)
    ∧ ((step2_session 4 c9FS).paramsWritten = true
      ∧ (step2_session 4 c9FS).cmdWritten = true)
    ∧ (step2_session 4 (step2_session 4 c9FS).fs).fs
        = (step2_session 4 c9FS).fs :=
  ⟨C9_only_merge_guarded.1 4 c9FS rfl,
   C9_only_merge_guarded.2.1 4 c9FS (.vol4 [1]) (.vol4 [2]) 1 rfl rfl rfl,
   C9_only_merge_guarded.2.2 4 c9FS⟩

/-- Claim C2 is right about the intent and the code is wrong: on the
timestamps [0, 0, 0.1, 0.1, 0.2, 0.2] the derived table does have 3 rows
of 2 slice indices, but its rows are [[0, 3], [1, 4], [2, 5]]: the first
row pairs slice 0 (instant 0) with slice 3 (instant 1/10), so the rows do
NOT list the slice indices sharing one acquisition instant (those groups
are [[0, 1], [2, 3], [4, 5]]).  The code reshapes the argsort permutation
row-major where the slspec recipe it transcribes requires column-major
semantics. -/
theorem C2_slice_groups_wrong_members :
    generate_slspec exTimes = some [[0, 3], [1, 4], [2, 5]]
    ∧ ((generate_slspec exTimes).getD []).length = 3
    ∧ (∀ row ∈ (generate_slspec exTimes).getD [], row.length = 2)
    ∧ exTimes.getD 0 0 = 0 ∧ exTimes.getD 3 0 = 1 / 10
    ∧ exTimes.getD 0 0 ≠ exTimes.getD 3 0 := by
  have hargsort : argsort exTimes = [0, 1, 2, 3, 4, 5] := by
    norm_num [argsort, insertSorted, exTimes, List.range_succ]
  have hsort : np_sort exTimes = exTimes := by
    rw [np_sort, hargsort]
    norm_num [exTimes]
  have hlen : exTimes.length = 6 := by norm_num [exTimes]
  have hfilter :
      ((np_diff exTimes).filter (fun d => d ≠ 0)).length = 2 := by
    norm_num [np_diff, exTimes, List.filter]
  have h1 : generate_slspec exTimes = some [[0, 3], [1, 4], [2, 5]] := by
    simp only [generate_slspec, hargsort, hsort, hlen, hfilter]
    decide
  refine ⟨h1, by simp [h1], by simp [h1], by norm_num [exTimes],
    by norm_num [exTimes], by norm_num [exTimes]⟩

/-- Counterexample to claim C8 as stated: for a 3-volume combined run the
volume-index table is a single line of three entries, not one line per
volume — its line count is 1, not 3. -/
theorem C8_counterexample :
    get_nvols (Image.vol4 [10, 20, 30]) = 3
    ∧ (step3_indices (Image.vol4 [10, 20, 30])).length = 1
    ∧ (step3_indices (Image.vol4 [10, 20, 30])).length ≠ 3
    ∧ (step3_indices (Image.vol4 [10, 20, 30])).flatten = ["1", "1", "1"] := by
  decide

/-- Claim C8 amended: the volume-index table written by step 3 is a single
line of whitespace-separated entries, with one entry per volume of the
Combined Run — the entry count equals the combined volume count — and every
entry is the constant marker 1. -/
theorem C8_indices_entries (img : Image) :
    (step3_indices img).length = 1
    ∧ (step3_indices img).flatten.length = get_nvols img
    ∧ ∀ s ∈ (step3_indices img).flatten, s = "1" := by
  refine ⟨rfl, ?_, ?_⟩
  · simp [step3_indices, eddy_indices]
  · intro s hs
    simp [step3_indices, eddy_indices, List.mem_replicate] at hs
    exact hs.2

end BTO
